import Mathlib

/-!
Shallow embedding of the Domain Puppy Cloudflare worker
(src/worker/src/index.js) for verification of its specification.

Modelling conventions:
* JS strings are Lean `String`s; `toLowerCase` is modelled as per-character
  ASCII lowercasing (the validator and all matched patterns use an
  ASCII-only character set, on which the JS function agrees).
* Machine integers are `Nat` (all counters in the worker are non-negative
  and far below any overflow boundary).
* The external KV store is an explicit association list from key strings to
  the stored counter value; the JSON round-trip the worker performs on its
  own records is modelled as the identity on the stored number.
* Network effects (RDAP fetches, WHOIS sockets, the upstream Domainr call)
  are oracles passed in as data; side effects of a handler are recorded in
  an explicit event trace.
-/

namespace DomainPuppy

-- ---------------------------------------------------------------------------
-- Domain validation (isValidDomain, index.js lines 19-32)
-- ---------------------------------------------------------------------------

/-- ASCII lowercasing of one character, the restriction of the JS
`toLowerCase` used by the worker to the ASCII range. -/
def jsCharToLower (c : Char) : Char :=
  if 65 ≤ c.toNat ∧ c.toNat ≤ 90 then Char.ofNat (c.toNat + 32) else c

/-- JS `s.toLowerCase()` on the character list of a string. -/
def strToLower (s : String) : String :=
  ⟨s.data.map jsCharToLower⟩

/-- JS `String.prototype.split(".")` on a character list: splitting on the
dot character, keeping empty segments, never returning an empty list. -/
def splitLabels : List Char → List (List Char)
  | [] => [[]]
  | c :: cs =>
    if c = '.' then [] :: splitLabels cs
    else
      match splitLabels cs with
      | l :: ls => (c :: l) :: ls
      | [] => [[c]]

/-- The character class `[a-z0-9-]` of the label regex. -/
def labelCharOk (c : Char) : Bool :=
  (97 ≤ c.toNat && c.toNat ≤ 122) || (48 ≤ c.toNat && c.toNat ≤ 57) || c = '-'

/-- The per-label check of `isValidDomain`: length 1..63, no leading or
trailing hyphen, and the regex `^[a-z0-9-]+$`. -/
def validLabel (label : List Char) : Bool :=
  if label.length = 0 || label.length > 63 then false
  else if label.head? = some '-' || label.getLast? = some '-' then false
  else !label.isEmpty && label.all labelCharOk

/-- The regex `^\d+$` on the TLD: non-empty and all ASCII digits. -/
def allDigits (l : List Char) : Bool :=
  !l.isEmpty && l.all (fun c => 48 ≤ c.toNat && c.toNat ≤ 57)

/-- `isValidDomain` (index.js 19-32).  The `typeof` guard has no counterpart
(the model input is always a string); `!domain` rejects the empty string. -/
def isValidDomain (domain : String) : Bool :=
  if domain.data.isEmpty then false
  else if domain.data.length > 253 then false
  else
    let labels := splitLabels (domain.data.map jsCharToLower)
    if labels.length < 2 then false
    else if !labels.all validLabel then false
    else
      let tld := labels.getLastD []
      if allDigits tld then false
      else true

-- ---------------------------------------------------------------------------
-- Status vocabulary and AvailabilityResult
-- ---------------------------------------------------------------------------

/-- The closed status vocabulary of the worker. -/
inductive Status where
  | available
  | taken
  | for_sale
  | premium
  | parked
  | unknown
  | skip
deriving DecidableEq, Repr

/-- `{ status, reason? }` objects produced by the resolution engine. -/
structure AvailabilityResult where
  status : Status
  reason : Option String
deriving DecidableEq, Repr

-- ---------------------------------------------------------------------------
-- RDAP routing table (index.js 416-504)
-- ---------------------------------------------------------------------------

/-- Builds an Identity Digital RDAP URL (`_idUrl`). -/
def idUrl (d : String) : String :=
  "https://rdap.identitydigital.services/rdap/domain/" ++ d

/-- Builds a CentralNic RDAP URL (`_cnUrl`, TLD is part of the path). -/
def cnUrl (tld : String) (d : String) : String :=
  "https://rdap.centralnic.com/" ++ tld ++ "/domain/" ++ d

/-- `RDAP_ROUTES`: association list from supported TLD to the function that
takes the full domain and returns the RDAP lookup URL. -/
def RDAP_ROUTES : List (String × (String → String)) :=
  [ ("com", fun d => "https://rdap.verisign.com/com/v1/domain/" ++ d),
    ("net", fun d => "https://rdap.verisign.com/net/v1/domain/" ++ d),
    ("cc",  fun d => "https://tld-rdap.verisign.com/cc/v1/domain/" ++ d),
    ("dev", fun d => "https://pubapi.registry.google/rdap/domain/" ++ d),
    ("app", fun d => "https://pubapi.registry.google/rdap/domain/" ++ d),
    ("ai", idUrl), ("io", idUrl), ("me", idUrl), ("sh", idUrl),
    ("tools", idUrl), ("codes", idUrl), ("run", idUrl), ("studio", idUrl),
    ("gallery", idUrl), ("media", idUrl), ("chat", idUrl), ("coffee", idUrl),
    ("cafe", idUrl), ("ventures", idUrl), ("supply", idUrl), ("agency", idUrl),
    ("capital", idUrl), ("community", idUrl), ("social", idUrl),
    ("group", idUrl), ("team", idUrl), ("market", idUrl), ("deals", idUrl),
    ("academy", idUrl), ("school", idUrl), ("training", idUrl), ("care", idUrl),
    ("clinic", idUrl), ("band", idUrl), ("money", idUrl), ("finance", idUrl),
    ("fund", idUrl), ("tax", idUrl), ("investments", idUrl),
    ("xyz", cnUrl "xyz"), ("build", cnUrl "build"), ("art", cnUrl "art"),
    ("game", cnUrl "game"), ("quest", cnUrl "quest"), ("lol", cnUrl "lol"),
    ("inc", cnUrl "inc"), ("store", cnUrl "store"), ("audio", cnUrl "audio"),
    ("fm", cnUrl "fm"),
    ("design",  fun d => "https://rdap.nic.design/domain/" ++ d),
    ("ink",     fun d => "https://rdap.nic.ink/domain/" ++ d),
    ("menu",    fun d => "https://rdap.nic.menu/domain/" ++ d),
    ("club",    fun d => "https://rdap.nic.club/domain/" ++ d),
    ("courses", fun d => "https://rdap.nic.courses/domain/" ++ d),
    ("health",  fun d => "https://rdap.nic.health/domain/" ++ d),
    ("fit",     fun d => "https://rdap.nic.fit/domain/" ++ d),
    ("music",   fun d => "https://rdap.registryservices.music/rdap/domain/" ++ d),
    ("shop",    fun d => "https://rdap.gmoregistry.net/rdap/domain/" ++ d),
    ("ly", fun d => "https://rdap.nic.ly/domain/" ++ d),
    ("is", fun d => "https://rdap.isnic.is/rdap/domain/" ++ d),
    ("to", fun d => "https://rdap.tonicregistry.to/rdap/domain/" ++ d),
    ("in", fun d => "https://rdap.nixiregistry.in/rdap/domain/" ++ d),
    ("re", fun d => "https://rdap.nic.re/domain/" ++ d),
    ("no", fun d => "https://rdap.norid.no/domain/" ++ d) ]

/-- `WHOIS_TLDS`: the 12 ccTLDs routed through the WHOIS proxy by the batch
resolver. -/
def WHOIS_TLDS : List String :=
  ["co", "it", "de", "be", "at", "se", "gg", "st", "pt", "my", "nu", "am"]

/-- `SKIP_TLDS`: TLDs where availability checking is unreliable. -/
def SKIP_TLDS : List String := ["es"]

/-- `RDAP_TIMEOUT_MS`. -/
def RDAP_TIMEOUT_MS : Nat := 8000

-- ---------------------------------------------------------------------------
-- RDAP resolution (index.js 525-576)
-- ---------------------------------------------------------------------------

/-- Outcome oracle for `fetchRdapStatus`: given the URL fetched and the index
of the attempt (0 = first, 1 = retry), yields the HTTP status code, or
`none` on network failure or timeout (the JS function returns `null`). -/
def RdapOracle := String → Nat → Option Nat

/-- `mapRdapStatus` (index.js 545-549): 200 is taken, 404 is available,
anything else is unknown. -/
def mapRdapStatus (httpStatus : Nat) : Status :=
  if httpStatus = 200 then .taken
  else if httpStatus = 404 then .available
  else .unknown

/-- The non-definitive test of `checkDomainRdap`
(`httpStatus === null || httpStatus === 429 || (httpStatus >= 500 && httpStatus < 600)`). -/
def rdapIsNonDefinitive : Option Nat → Bool
  | none => true
  | some s => s == 429 || (500 ≤ s && s < 600)

/-- Final-result construction of `checkDomainRdap` from the status of the
attempt that was used (lines 571-575). -/
def rdapClassify (httpStatus : Option Nat) : AvailabilityResult :=
  match httpStatus with
  | none => ⟨.unknown, some "timeout"⟩
  | some s =>
    let status := mapRdapStatus s
    if status = .unknown then ⟨status, some ("http_" ++ toString s)⟩
    else ⟨status, none⟩

/-- The RDAP URL used by `checkDomainRdap` for a routed TLD.  The source
indexes `RDAP_ROUTES[tld]` directly; it is only called for TLDs present in
the table, so the `none` default is unreachable from its callers. -/
def rdapUrl (domain tld : String) : String :=
  match (RDAP_ROUTES.lookup tld) with
  | some urlFn => urlFn domain
  | none => ""

/-- Observable outcome of one `checkDomainRdap` call: the result together
with the number of fetches issued and the delay waited before a retry. -/
structure RdapOutcome where
  result : AvailabilityResult
  attempts : Nat
  retryDelayMs : Option Nat
deriving DecidableEq, Repr

/-- `checkDomainRdap` (index.js 557-576): one fetch, then a single retry
after a fixed 2000 ms delay when the first outcome is non-definitive. -/
def checkDomainRdap (domain tld : String) (fetchR : RdapOracle) : RdapOutcome :=
  let url := rdapUrl domain tld
  let first := fetchR url 0
  if rdapIsNonDefinitive first then
    let second := fetchR url 1
    ⟨rdapClassify second, 2, some 2000⟩
  else
    ⟨rdapClassify first, 1, none⟩

-- ---------------------------------------------------------------------------
-- WHOIS infrastructure (index.js 736-894)
-- ---------------------------------------------------------------------------

/-- `WHOIS_SERVERS` (index.js 736-750). -/
def WHOIS_SERVERS : List (String × String) :=
  [ ("co", "whois.registry.co"),
    ("it", "whois.nic.it"),
    ("de", "whois.denic.de"),
    ("be", "whois.dns.be"),
    ("at", "whois.nic.at"),
    ("se", "whois.iis.se"),
    ("gg", "whois.gg"),
    ("st", "whois.nic.st"),
    ("pt", "whois.dns.pt"),
    ("my", "whois.mynic.my"),
    ("nu", "whois.iis.nu"),
    ("am", "whois.amnic.net"),
    ("es", "whois.nic.es") ]

/-- The character class kept by the sanitizer regex `[^a-z0-9.-]/gi`
(case-insensitive, so ASCII uppercase is kept as well). -/
def sanitizeChar (c : Char) : Bool :=
  (97 ≤ c.toNat && c.toNat ≤ 122) || (65 ≤ c.toNat && c.toNat ≤ 90) ||
  (48 ≤ c.toNat && c.toNat ≤ 57) || c = '.' || c = '-'

/-- `WHOIS_QUERY_FORMATS` (index.js 755-757): per-server query overrides. -/
def WHOIS_QUERY_FORMATS : List (String × (String → String)) :=
  [ ("whois.denic.de", fun domain => "-T dn,ace " ++ domain ++ "\r\n") ]

/-- `buildWhoisQuery` (index.js 759-763). -/
def buildWhoisQuery (domain server : String) : String :=
  let safeDomain : String := ⟨domain.data.filter sanitizeChar⟩
  match WHOIS_QUERY_FORMATS.lookup server with
  | some fmt => fmt safeDomain
  | none => safeDomain ++ "\r\n"

/-- One token of a WHOIS response pattern: a literal character, `\s*`, or
`\s+`.  The handful of regexes in `WHOIS_PARSERS` use only literals and
whitespace runs, always followed by a non-whitespace literal, so greedy
whitespace matching below coincides with regex semantics. -/
inductive PatC where
  | ch (c : Char)
  | ws0
  | ws1
deriving DecidableEq, Repr

/-- Literal pattern from a string. -/
def lit (s : String) : List PatC := s.data.map PatC.ch

/-- Measure used for the termination of `matchPats`. -/
def patsSize (ps : List PatC) : Nat :=
  (ps.map (fun p => match p with | .ws1 => 2 | _ => 1)).sum

/-- Matches a pattern at the start of a character list (characters are
expected to be pre-lowercased; `\s` is modelled as `Char.isWhitespace`,
which covers the whitespace occurring in WHOIS responses). -/
def matchPats : List PatC → List Char → Bool
  | [], _ => true
  | .ch _ :: _, [] => false
  | .ch a :: ps, c :: cs => if c = a then matchPats ps cs else false
  | .ws0 :: ps, [] => matchPats ps []
  | .ws0 :: ps, c :: cs =>
      if c.isWhitespace then matchPats (.ws0 :: ps) cs else matchPats ps (c :: cs)
  | .ws1 :: _, [] => false
  | .ws1 :: ps, c :: cs =>
      if c.isWhitespace then matchPats (.ws0 :: ps) cs else false
  termination_by ps cs => cs.length + patsSize ps
  decreasing_by all_goals simp [patsSize] <;> omega

/-- Searches a pattern anywhere in a character list (regex `test` without
anchors). -/
def searchPats (ps : List PatC) : List Char → Bool
  | [] => matchPats ps []
  | c :: cs => matchPats ps (c :: cs) || searchPats ps cs

/-- Case-insensitive unanchored regex test on a response string. -/
def testCI (ps : List PatC) (r : String) : Bool :=
  searchPats ps (r.data.map jsCharToLower)

/-- Splits into lines at the JS multiline-mode line terminators occurring in
WHOIS responses (LF and CR). -/
def splitLines : List Char → List (List Char)
  | [] => [[]]
  | c :: cs =>
    if c = '\n' ∨ c = '\r' then [] :: splitLines cs
    else
      match splitLines cs with
      | l :: ls => (c :: l) :: ls
      | [] => [[c]]

/-- Case-insensitive line-anchored regex test (`/^.../im`). -/
def testLineCI (ps : List PatC) (r : String) : Bool :=
  (splitLines (r.data.map jsCharToLower)).any (matchPats ps)

/-- `WHOIS_PARSERS` (index.js 765-833): per-server response classifiers.
Each regex of the source is rendered with `testCI`/`testLineCI` over its
(lowercased) literal and whitespace tokens. -/
def WHOIS_PARSERS : List (String × (String → Status)) :=
  [ ("whois.registry.co", fun r =>
      if testCI (lit "domain not found") r then .available
      else if testCI (lit "domain name:") r then .taken
      else .unknown),
    ("whois.nic.it", fun r =>
      if testCI (lit "available") r ||
         testCI (lit "status:" ++ [.ws0] ++ lit "available") r then .available
      else if testCI (lit "domain:") r && testCI (lit "status:") r then .taken
      else .unknown),
    ("whois.denic.de", fun r =>
      if testLineCI (lit "status:" ++ [.ws0] ++ lit "free") r then .available
      else if testLineCI (lit "domain:") r then .taken
      else .unknown),
    ("whois.dns.be", fun r =>
      if testCI (lit "status:" ++ [.ws0] ++ lit "not" ++ [.ws1] ++ lit "available") r then .taken
      else if testCI (lit "status:" ++ [.ws0] ++ lit "available") r then .available
      else if testCI (lit "registered:") r then .taken
      else .unknown),
    ("whois.nic.at", fun r =>
      if testCI (lit "nothing found") r then .available
      else if testCI (lit "domain:") r then .taken
      else .unknown),
    ("whois.iis.se", fun r =>
      if testCI (lit "not found") r then .available
      else if testCI (lit "domain:") r then .taken
      else .unknown),
    ("whois.gg", fun r =>
      if testCI (lit "not found") r then .available
      else if testCI (lit "domain:") r then .taken
      else .unknown),
    ("whois.nic.st", fun r =>
      if !testCI (lit "domain name:") r then .available
      else if testCI (lit "domain name:") r then .taken
      else .unknown),
    ("whois.dns.pt", fun r =>
      if testCI (lit "not found") r || !testCI (lit "domain:") r then .available
      else if testCI (lit "domain:") r then .taken
      else .unknown),
    ("whois.mynic.my", fun r =>
      if !testCI (lit "domain name:") r then .available
      else if testCI (lit "domain name:") r then .taken
      else .unknown),
    ("whois.iis.nu", fun r =>
      if testCI (lit "not found") r then .available
      else if testCI (lit "domain:") r then .taken
      else .unknown),
    ("whois.amnic.net", fun r =>
      if testCI (lit "no match") r then .available
      else if testCI (lit "domain name:") r then .taken
      else .unknown),
    ("whois.nic.es", fun r =>
      if testCI (lit "libre") r || testCI (lit "no encontrado") r then .available
      else if testCI (lit "nombre de dominio:") r || testCI (lit "domain name:") r then .taken
      else .unknown) ]

/-- JS `String.prototype.trim`: strips whitespace from both ends. -/
def jsTrim (s : String) : String :=
  ⟨((s.data.dropWhile Char.isWhitespace).reverse.dropWhile Char.isWhitespace).reverse⟩

/-- `parseWhoisResponse` (index.js 835-839): empty or whitespace-only
responses are `unknown` without invoking the parser. -/
def parseWhoisResponse (response server : String) : Status :=
  if (jsTrim response).length = 0 then .unknown
  else
    match WHOIS_PARSERS.lookup server with
    | some p => p response
    | none => .unknown

/-- `MAX_WHOIS_RESPONSE`: 10 KB response-size guard. -/
def MAX_WHOIS_RESPONSE : Nat := 10 * 1024

/-- `WHOIS_TIMEOUT_MS`: shared 5-second deadline for the read phase. -/
def WHOIS_TIMEOUT_MS : Nat := 5000

/-- One iteration outcome of the WHOIS read loop race (index.js 861-881):
either data arrives before the deadline, the stream signals completion, the
shared deadline elapses first (also covering `remaining <= 0`), or the read
itself rejects — which the loop catches and treats as a break. -/
inductive ReadEvent where
  | chunk (data : String)
  | closed
  | timedOut
  | errored
deriving DecidableEq, Repr

/-- Behaviour of the network for one WHOIS lookup: whether `connect` and the
query write succeed, and the successive outcomes of the read race.  An
exhausted event list stands for the deadline elapsing. -/
structure WhoisNet where
  connectOk : Bool
  writeOk : Bool
  reads : List ReadEvent

/-- The read loop of `whoisLookup` (index.js 858-881): accumulates chunks,
stopping at stream completion, deadline, read failure, or when a chunk
would push the accumulated size past `MAX_WHOIS_RESPONSE`.  JS string
`length` and chunk `byteLength` are both modelled as `String.length`. -/
def whoisReadLoop : List ReadEvent → String → String
  | [], response => response
  | e :: rest, response =>
    match e with
    | .timedOut => response
    | .errored => response
    | .closed => response
    | .chunk value =>
      if response.length + value.length > MAX_WHOIS_RESPONSE then response
      else whoisReadLoop rest (response ++ value)

/-- The `try` block of `whoisLookup` (index.js 846-886): connect, write the
query, then run the read loop.  A thrown connect or a rejected write
surfaces as an error; read failures are caught inside the loop. -/
def whoisLookupBody (domain server : String) (net : WhoisNet) : Except String String :=
  let _query := buildWhoisQuery domain server
  if !net.connectOk then .error "connect failed"
  else if !net.writeOk then .error "write failed"
  else .ok (whoisReadLoop net.reads "")

/-- `whoisLookup` (index.js 844-894): the catch clause converts any failure
of the body to the empty string; the socket close in `finally` has no
observable effect in the model. -/
def whoisLookup (domain server : String) (net : WhoisNet) : String :=
  match whoisLookupBody domain server net with
  | .ok r => r
  | .error _ => ""

/-- `checkDomainWhois` (index.js 584-596).  The source wraps the lookup and
parse in `try { ... } catch { return unknown/whois_error }`; in the model
both `whoisLookup` and `parseWhoisResponse` are total (every network
failure is caught inside `whoisLookup` itself), so the catch branch has no
reachable counterpart. -/
def checkDomainWhois (domain tld : String) (net : WhoisNet) : AvailabilityResult :=
  match WHOIS_SERVERS.lookup tld with
  | none => ⟨.unknown, some "no_whois_server"⟩
  | some server =>
    let raw := whoisLookup domain server net
    let status := parseWhoisResponse raw server
    if status = .unknown then ⟨status, some "whois_inconclusive"⟩
    else ⟨status, none⟩

-- ---------------------------------------------------------------------------
-- Single-domain routing (checkSingleDomain, index.js 604-616)
-- ---------------------------------------------------------------------------

/-- Network behaviour relevant to one domain resolution: the RDAP fetch
oracle and the WHOIS socket behaviour. -/
structure NetEnv where
  rdap : RdapOracle
  whois : WhoisNet

/-- `checkSingleDomain` (index.js 604-616): skip-listed TLDs short-circuit,
WHOIS TLDs go to `checkDomainWhois`, routed TLDs to `checkDomainRdap`, and
everything else is `unknown/tld_not_supported`. -/
def checkSingleDomain (domain tld : String) (net : NetEnv) : AvailabilityResult :=
  if SKIP_TLDS.contains tld then ⟨.skip, some "tld_not_supported"⟩
  else if WHOIS_TLDS.contains tld then checkDomainWhois domain tld net.whois
  else if (RDAP_ROUTES.lookup tld).isSome then (checkDomainRdap domain tld net.rdap).result
  else ⟨.unknown, some "tld_not_supported"⟩

-- ---------------------------------------------------------------------------
-- Batch orchestration (handleDomainCheck, index.js 675-730)
-- ---------------------------------------------------------------------------

/-- `[...new Set(xs)]`: deduplication keeping the first occurrence of each
element; `seen` is the set built so far. -/
def dedupFirst (seen : List String) : List String → List String
  | [] => []
  | x :: xs =>
    if seen.contains x then dedupFirst seen xs
    else x :: dedupFirst (x :: seen) xs

/-- `domain.split(".").pop()`: the last dot-separated segment (a split result
is never empty, so `pop` is its last element). -/
def domainTld (domain : String) : String :=
  ⟨(splitLabels domain.data).getLastD []⟩

/-- The `meta` object of a batch response.  `duration_ms` is wall-clock time
and has no counterpart in the model. -/
structure BatchMeta where
  checked : Nat
  completed : Nat
  incomplete : Nat
deriving DecidableEq, Repr

/-- A batch response: the per-domain results object and the aggregate meta. -/
structure BatchResp where
  results : List (String × AvailabilityResult)
  meta : BatchMeta

/-- An error response `{ error }` with its HTTP status. -/
structure ErrResp where
  httpStatus : Nat
  error : String
deriving DecidableEq, Repr

/-- The core of `handleDomainCheck` (index.js 655-730), from the point where
`body.domains` is known to be an array of strings.  All per-domain tasks
settle fulfilled because `checkSingleDomain` is total, so the
`Promise.allSettled` rejected branch (index.js 713-717) has no reachable
counterpart. -/
def handleDomainCheck (domains : List String) (net : String → NetEnv) :
    Except ErrResp BatchResp :=
  if domains.length = 0 then .error ⟨400, "bad_request"⟩
  else if domains.length > 20 then .error ⟨400, "bad_request"⟩
  else
    let normalised := domains.map strToLower
    let unique := dedupFirst [] normalised
    if unique.all isValidDomain then
      let settled := unique.map
        (fun domain => (domain, checkSingleDomain domain (domainTld domain) (net domain)))
      let completed := settled.countP (fun p => p.2.status ≠ Status.unknown)
      let incomplete := settled.countP (fun p => p.2.status = Status.unknown)
      .ok ⟨settled, ⟨unique.length, completed, incomplete⟩⟩
    else .error ⟨400, "bad_request"⟩

-- ---------------------------------------------------------------------------
-- KV store model and admission guards (index.js 144-297)
-- ---------------------------------------------------------------------------

/-- The external KV namespace: key to last-written counter value.  The JSON
encoding the worker round-trips through its own records (`checksUsed`,
`requestCount`, plain number strings) is modelled as the identity; TTLs are
real time and have no counterpart. -/
abbrev KV := List (String × Nat)

/-- `QUOTA_KV.get`. -/
def kvGet (kv : KV) (key : String) : Option Nat := kv.lookup key

/-- `QUOTA_KV.put`. -/
def kvPut (kv : KV) (key : String) (value : Nat) : KV := (key, value) :: kv

/-- Observable side effects of premium-check handling. -/
inductive Ev where
  | kvGet (key : String)
  | kvPut (key : String) (value : Nat)
  | upstreamCall (domain : String)
  | alertPost
deriving DecidableEq, Repr

/-- The wall clock, read through `getCurrentMonth()` and
`Math.floor(Date.now() / 60000)`. -/
structure Clock where
  month : String
  minute : Nat

/-- The worker environment bindings used by the premium-check path.
`freeChecksRaw` and `monthlyLimitRaw` are the `parseInt` results of the
corresponding vars (`none` for NaN); `jsOrDefault` applies the `|| 5` and
`|| 8000` defaults. -/
structure Env where
  kvConfigured : Bool
  fastlyToken : Bool
  alertWebhook : Bool
  freeChecksRaw : Option Nat
  monthlyLimitRaw : Option Nat

/-- JS `x || d` on a parsed number: NaN and 0 fall back to the default. -/
def jsOrDefault (v : Option Nat) (d : Nat) : Nat :=
  match v with
  | none => d
  | some n => if n = 0 then d else n

/-- Quota key `ip:{clientIP}:{YYYY-MM}`. -/
def quotaKey (clientIP month : String) : String :=
  "ip:" ++ clientIP ++ ":" ++ month

/-- Circuit-breaker key `circuit:monthly:{YYYY-MM}`. -/
def circuitKey (month : String) : String :=
  "circuit:monthly:" ++ month

/-- Rate-limit key `ratelimit:{clientIP}:{minute}`. -/
def rateKey (clientIP : String) (minute : Nat) : String :=
  "ratelimit:" ++ clientIP ++ ":" ++ toString minute

/-- Result object of `checkQuota`. -/
structure QuotaCheck where
  allowed : Bool
  checksUsed : Nat
  remaining : Nat
deriving DecidableEq, Repr

/-- `checkQuota` (index.js 153-170): reads without incrementing, fails open
when KV is not configured.  `Math.max(0, free - used)` is the truncated
`Nat` subtraction. -/
def checkQuota (env : Env) (kv : KV) (clk : Clock) (clientIP : String)
    (freeChecksPerIP : Nat) : QuotaCheck × List Ev :=
  if !env.kvConfigured then (⟨true, 0, freeChecksPerIP⟩, [])
  else
    let key := quotaKey clientIP clk.month
    let checksUsed := (kvGet kv key).getD 0
    (⟨decide (checksUsed < freeChecksPerIP), checksUsed, freeChecksPerIP - checksUsed⟩,
     [.kvGet key])

/-- `incrementQuota` (index.js 177-187): writes `checksUsed + 1` for the
value read at quota-check time. -/
def incrementQuota (env : Env) (kv : KV) (clk : Clock) (clientIP : String)
    (checksUsed : Nat) : KV × List Ev :=
  if !env.kvConfigured then (kv, [])
  else
    let key := quotaKey clientIP clk.month
    (kvPut kv key (checksUsed + 1), [.kvPut key (checksUsed + 1)])

/-- Result object of `checkCircuitBreaker` (`open` renamed to `isOpen`,
`open` being a Lean keyword). -/
structure CircuitCheck where
  isOpen : Bool
  requestCount : Nat
deriving DecidableEq, Repr

/-- `checkCircuitBreaker` (index.js 204-218). -/
def checkCircuitBreaker (env : Env) (kv : KV) (clk : Clock)
    (monthlyQuotaLimit : Nat) : CircuitCheck × List Ev :=
  if !env.kvConfigured then (⟨false, 0⟩, [])
  else
    let key := circuitKey clk.month
    let requestCount := (kvGet kv key).getD 0
    (⟨decide (requestCount ≥ monthlyQuotaLimit), requestCount⟩, [.kvGet key])

/-- `sendBreakerAlert` (index.js 252-267): a webhook POST, silently skipped
without configuration; delivery failure is invisible to the caller. -/
def sendBreakerAlert (env : Env) : List Ev :=
  if !env.alertWebhook then [] else [.alertPost]

/-- `incrementMonthlyCount` (index.js 227-245): unconditional increment of
the stored count with a one-shot alert at the crossing of the ceiling. -/
def incrementMonthlyCount (env : Env) (kv : KV) (clk : Clock)
    (monthlyQuotaLimit : Nat) : KV × List Ev :=
  if !env.kvConfigured then (kv, [])
  else
    let key := circuitKey clk.month
    let requestCount := (kvGet kv key).getD 0
    let newCount := requestCount + 1
    let alertEvs :=
      if newCount ≥ monthlyQuotaLimit ∧ requestCount < monthlyQuotaLimit then
        sendBreakerAlert env
      else []
    (kvPut kv key newCount, [.kvGet key, .kvPut key newCount] ++ alertEvs)

/-- `checkRateLimit` (index.js 283-297): the counter increments only when
the request is allowed through. -/
def checkRateLimit (env : Env) (kv : KV) (clk : Clock) (clientIP : String)
    (maxPerMinute : Nat) : Bool × KV × List Ev :=
  if !env.kvConfigured then (false, kv, [])
  else
    let key := rateKey clientIP clk.minute
    let count := (kvGet kv key).getD 0
    if count ≥ maxPerMinute then (true, kv, [.kvGet key])
    else (false, kvPut kv key (count + 1), [.kvGet key, .kvPut key (count + 1)])

-- ---------------------------------------------------------------------------
-- Domainr status mapping (index.js 46-97)
-- ---------------------------------------------------------------------------

/-- `split(/\s+/)` on a character list.  Unlike the JS regex split this keeps
empty segments for adjacent separators; the parts are only ever consulted
through `includes` of non-empty words, on which the two agree. -/
def splitWs : List Char → List (List Char)
  | [] => [[]]
  | c :: cs =>
    if c.isWhitespace then [] :: splitWs cs
    else
      match splitWs cs with
      | l :: ls => (c :: l) :: ls
      | [] => [[c]]

/-- `mapDomainrStatus` (index.js 46-79): priority mapping of the
space-separated Domainr status tokens. -/
def mapDomainrStatus (domainrStatusString : String) : Status :=
  if domainrStatusString.data.isEmpty then .unknown
  else
    let lowered := (strToLower domainrStatusString).data
    let tokens := splitWs lowered
    if tokens.contains "marketed".data || tokens.contains "forsale".data ||
       searchPats (lit "for sale") lowered then .for_sale
    else if tokens.contains "priced".data then .premium
    else if tokens.contains "parked".data then .parked
    else if tokens.contains "active".data then .taken
    else if tokens.contains "inactive".data then .available
    else .unknown

/-- One entry of the Domainr `status` array. -/
structure DomainrEntry where
  domain : Option String
  status : Option String
  summary : Option String

/-- JS `a || b` on an optional string: an absent or empty value falls
through. -/
def jsStrOr (a : Option String) (b : String) : String :=
  match a with
  | some s => if s.data.isEmpty then b else s
  | none => b

/-- `parseDomainrResponse` (index.js 85-97): `none` stands for a missing or
non-array `status` field. -/
def parseDomainrResponse (data : Option (List DomainrEntry))
    (requestedDomain : String) : Status :=
  match data with
  | none => .unknown
  | some entries =>
    if entries.isEmpty then .unknown
    else
      let normalizedRequest := strToLower requestedDomain
      let entry :=
        match entries.find? (fun s => match s.domain with
          | some d => !d.data.isEmpty && strToLower d == normalizedRequest
          | none => false) with
        | some e => e
        | none => entries.headD ⟨none, none, none⟩
      mapDomainrStatus (jsStrOr entry.status (jsStrOr entry.summary ""))

-- ---------------------------------------------------------------------------
-- Premium-check handler (handlePremiumCheck, index.js 959-1071)
-- ---------------------------------------------------------------------------

/-- The `domain` field of the request body: `missing` covers an absent,
null, or empty-string (falsy) field; `str` holds a truthy string. -/
inductive BodyDomain where
  | missing
  | notString
  | str (s : String)

/-- The parts of an inbound premium-check request the handler consults. -/
structure PremiumRequest where
  ipHeader : Option String
  contentLength : Nat
  contentTypeJson : Bool
  bodyParses : Bool
  domainField : BodyDomain

/-- `getClientIP` (index.js 136-138): header value or the sentinel
(`none` also stands for an empty, falsy header). -/
def getClientIP (req : PremiumRequest) : String :=
  req.ipHeader.getD "unknown"

/-- Outcome of the single upstream Domainr fetch: a network-level failure,
or an HTTP response with its status and parsed JSON body (`none` when
`json()` rejects). -/
inductive Upstream where
  | netError
  | resp (status : Nat) (body : Option (Option (List DomainrEntry)))

/-- A JSON HTTP response as the premium handler builds them: status code,
optional `error` and `message` fields, and the success payload fields. -/
structure HttpResp where
  httpStatus : Nat
  errorCode : Option String
  message : Option String
  statusField : Option Status
  remainingChecks : Option Nat
deriving DecidableEq, Repr

/-- `errorResponse` (index.js 110-114). -/
def errorResponse (status : Nat) (errorCode : String) (message : Option String) :
    HttpResp :=
  ⟨status, some errorCode, message, none, none⟩

/-- `handlePremiumCheck` (index.js 959-1071): burst limiter, circuit
breaker, quota, body validation, upstream call, then the two counter
increments on success.  The `Promise.all` of the increments is sequenced
quota-then-monthly; the two writes target distinct keys. -/
def handlePremiumCheck (env : Env) (clk : Clock) (req : PremiumRequest)
    (upstream : Upstream) (kv : KV) : HttpResp × KV × List Ev :=
  let freeChecksPerIP := jsOrDefault env.freeChecksRaw 5
  let monthlyQuotaLimit := jsOrDefault env.monthlyLimitRaw 8000
  let clientIP := getClientIP req
  let (limited, kv1, ev1) := checkRateLimit env kv clk clientIP 10
  if limited then
    (errorResponse 429 "rate_limited" (some "Too many requests. Please wait a moment."),
     kv1, ev1)
  else
    let (circuit, ev2) := checkCircuitBreaker env kv1 clk monthlyQuotaLimit
    if circuit.isOpen then
      (errorResponse 503 "service_unavailable" none, kv1, ev1 ++ ev2)
    else
      let (quota, ev3) := checkQuota env kv1 clk clientIP freeChecksPerIP
      let evs := ev1 ++ ev2 ++ ev3
      if !quota.allowed then
        (⟨429, some "quota_exceeded", none, none, some 0⟩, kv1, evs)
      else if req.contentLength > 4096 then
        (errorResponse 413 "payload_too_large" (some "Request body too large"), kv1, evs)
      else if !req.contentTypeJson then
        (errorResponse 400 "bad_request" (some "Content-Type must be application/json"),
         kv1, evs)
      else if !req.bodyParses then
        (errorResponse 400 "bad_request" (some "Request body is not valid JSON"), kv1, evs)
      else
        match req.domainField with
        | .missing =>
          (errorResponse 400 "bad_request" (some "Missing required field: domain"), kv1, evs)
        | .notString =>
          (errorResponse 400 "bad_request" (some "Field \"domain\" must be a string"), kv1, evs)
        | .str domain =>
          if !isValidDomain domain then
            (errorResponse 400 "bad_request" (some "Invalid domain format"), kv1, evs)
          else if !env.fastlyToken then
            (errorResponse 503 "service_unavailable" none, kv1, evs)
          else
            let evs := evs ++ [Ev.upstreamCall domain]
            match upstream with
            | .netError =>
              (errorResponse 503 "service_unavailable" none, kv1, evs)
            | .resp status body =>
              if status = 429 then
                (⟨429, some "quota_exceeded", none, none, some 0⟩, kv1, evs)
              else if !(200 ≤ status && status < 300) then
                (errorResponse 503 "service_unavailable" none, kv1, evs)
              else
                match body with
                | none =>
                  (errorResponse 503 "service_unavailable" none, kv1, evs)
                | some data =>
                  let st := parseDomainrResponse data domain
                  let (kv2, ev4) := incrementQuota env kv1 clk clientIP quota.checksUsed
                  let (kv3, ev5) := incrementMonthlyCount env kv2 clk monthlyQuotaLimit
                  let remaining := freeChecksPerIP - (quota.checksUsed + 1)
                  (⟨200, none, none, some st, some remaining⟩, kv3, evs ++ ev4 ++ ev5)

-- ---------------------------------------------------------------------------
-- Observation helpers over stores and traces
-- ---------------------------------------------------------------------------

/-- The stored global monthly request count (0 before the first write). -/
def circuitCount (kv : KV) (clk : Clock) : Nat :=
  (kvGet kv (circuitKey clk.month)).getD 0

/-- The stored per-client monthly `checksUsed` (0 before the first write). -/
def quotaCount (kv : KV) (clk : Clock) (clientIP : String) : Nat :=
  (kvGet kv (quotaKey clientIP clk.month)).getD 0

/-- The stored per-client per-minute burst count. -/
def rateCount (kv : KV) (clk : Clock) (clientIP : String) : Nat :=
  (kvGet kv (rateKey clientIP clk.minute)).getD 0

/-- Number of alert webhook POSTs in a trace. -/
def countAlerts (evs : List Ev) : Nat :=
  evs.countP (fun e => match e with | .alertPost => true | _ => false)

/-- Whether a trace reads or writes a given key. -/
def touchesKey (evs : List Ev) (key : String) : Bool :=
  evs.any (fun e => match e with
    | .kvGet k => k == key
    | .kvPut k _ => k == key
    | _ => false)

/-- Whether a trace contains the metered upstream call. -/
def callsUpstream (evs : List Ev) : Bool :=
  evs.any (fun e => match e with | .upstreamCall _ => true | _ => false)

/-- A sequential run of `incrementMonthlyCount`: `n` increments against the
same clock, concatenating traces. -/
def runMonthly (env : Env) (clk : Clock) (monthlyQuotaLimit : Nat) :
    Nat → KV → KV × List Ev
  | 0, kv => (kv, [])
  | n + 1, kv =>
    let (kv1, ev1) := incrementMonthlyCount env kv clk monthlyQuotaLimit
    let (kv2, evs) := runMonthly env clk monthlyQuotaLimit n kv1
    (kv2, ev1 ++ evs)

-- ---------------------------------------------------------------------------
-- Shared helper lemmas
-- ---------------------------------------------------------------------------

theorem toNat_ofNat_valid (n : Nat) (hv : n.isValidChar) : (Char.ofNat n).toNat = n := by
  unfold Char.ofNat
  rw [dif_pos hv]
  rfl

theorem jsCharToLower_idem (c : Char) : jsCharToLower (jsCharToLower c) = jsCharToLower c := by
  by_cases h : 65 ≤ c.toNat ∧ c.toNat ≤ 90
  · have ht : (Char.ofNat (c.toNat + 32)).toNat = c.toNat + 32 :=
      toNat_ofNat_valid _ (Or.inl (by omega))
    simp only [jsCharToLower, if_pos h, ht]
    rw [if_neg (by omega)]
  · simp [jsCharToLower, h]

-- ---------------------------------------------------------------------------
-- C10: case-insensitivity of domain validation
-- ---------------------------------------------------------------------------

/-- Claim C10: domain validation is case-insensitive — for every input
string `s`, `isValidDomain s` equals `isValidDomain` of its lowercased
form; in particular a domain with uppercase ASCII letters is accepted
whenever its lowercase form is accepted. -/
theorem C10_validator_case_insensitive (s : String) :
    isValidDomain s = isValidDomain (strToLower s) := by
  have hmap : (s.data.map jsCharToLower).map jsCharToLower = s.data.map jsCharToLower := by
    rw [List.map_map]
    exact List.map_congr_left (fun c _ => jsCharToLower_idem c)
  have hemp : (s.data.map jsCharToLower).isEmpty = s.data.isEmpty := by
    cases s.data <;> simp
  unfold isValidDomain strToLower
  simp only [String.data, hmap, hemp, List.length_map]

-- ---------------------------------------------------------------------------
-- C2: WHOIS failure semantics
-- ---------------------------------------------------------------------------

theorem whoisLookup_empty_of_fail (domain server : String) (net : WhoisNet)
    (hfail : net.connectOk = false ∨ net.writeOk = false ∨ net.reads.head? = some .errored) :
    whoisLookup domain server net = "" := by
  rcases hfail with h | h | h
  · simp [whoisLookup, whoisLookupBody, h]
  · cases hc : net.connectOk <;> simp [whoisLookup, whoisLookupBody, h, hc]
  · cases hr : net.reads with
    | nil => simp [hr] at h
    | cons e rest =>
      rw [hr] at h
      simp at h
      subst h
      cases hc : net.connectOk <;> cases hw : net.writeOk <;>
        simp [whoisLookup, whoisLookupBody, hc, hw, hr, whoisReadLoop]

theorem parseWhoisResponse_empty (server : String) :
    parseWhoisResponse "" server = .unknown := by
  unfold parseWhoisResponse
  rw [if_pos (by decide)]

theorem checkDomainWhois_inconclusive_of_fail (domain tld server : String) (net : WhoisNet)
    (hs : WHOIS_SERVERS.lookup tld = some server)
    (hfail : net.connectOk = false ∨ net.writeOk = false ∨ net.reads.head? = some .errored) :
    checkDomainWhois domain tld net = ⟨.unknown, some "whois_inconclusive"⟩ := by
  have hl := whoisLookup_empty_of_fail domain server net hfail
  simp [checkDomainWhois, hs, hl, parseWhoisResponse_empty]

/-- Claim C2 counterexample: a legacy-protocol lookup whose connection
attempt fails resolves to `unknown` with reason `whois_inconclusive`, not
`whois_error` as the claim states — the connection failure is swallowed
inside `whoisLookup` as an empty response, so the `whois_error` catch
branch of `checkDomainWhois` is never reached. -/
theorem C2_counterexample :
    checkDomainWhois "example.co" "co" ⟨false, true, []⟩ =
      ⟨Status.unknown, some "whois_inconclusive"⟩ ∧
    (some "whois_inconclusive" : Option String) ≠ some "whois_error" := by
  exact ⟨by decide, by decide⟩

/-- Claim C2 amended: for every domain routed to the legacy WHOIS protocol
whose connection or write fails (or whose very first read fails), the
resolution result is `{ status: unknown, reason: whois_inconclusive }` —
the failure is converted to an empty response rather than an error — the
failure never propagates to the caller, and the RDAP path is never invoked
for that domain (the outcome is independent of the RDAP oracle). -/
theorem C2_whois_failure (domain tld : String) (net : WhoisNet)
    (htld : tld ∈ WHOIS_TLDS)
    (hfail : net.connectOk = false ∨ net.writeOk = false ∨ net.reads.head? = some .errored)
    (rdap1 rdap2 : RdapOracle) :
    checkSingleDomain domain tld ⟨rdap1, net⟩ = ⟨.unknown, some "whois_inconclusive"⟩ ∧
    checkSingleDomain domain tld ⟨rdap1, net⟩ = checkSingleDomain domain tld ⟨rdap2, net⟩ := by
  have hskip : tld ∉ SKIP_TLDS := by fin_cases htld <;> decide
  have hs : ∃ server, WHOIS_SERVERS.lookup tld = some server := by
    fin_cases htld <;> exact ⟨_, rfl⟩
  obtain ⟨server, hs⟩ := hs
  constructor
  · simp only [checkSingleDomain]
    rw [if_neg (by simpa using hskip), if_pos (by simpa using htld)]
    exact checkDomainWhois_inconclusive_of_fail domain tld server net hs hfail
  · simp [checkSingleDomain, hskip, htld]

/-- Witness for C2: the amended theorem applied to a concrete `.co` lookup
with a failing connection and two different RDAP oracles. -/
theorem C2_whois_failure_witness :
    checkSingleDomain "example.co" "co" ⟨fun _ _ => some 200, ⟨false, true, []⟩⟩ =
      ⟨Status.unknown, some "whois_inconclusive"⟩ :=
  (C2_whois_failure "example.co" "co" ⟨false, true, []⟩ (by decide) (Or.inl rfl)
    (fun _ _ => some 200) (fun _ _ => none)).1

-- ---------------------------------------------------------------------------
-- C3: where the reason field is populated
-- ---------------------------------------------------------------------------

theorem lookup_forall {β : Type} (P : β → Prop) (l : List (String × β)) (a : String) (b : β)
    (hall : ∀ x ∈ l, P x.2) (h : l.lookup a = some b) : P b := by
  induction l with
  | nil => simp [List.lookup] at h
  | cons hd tl ih =>
    rw [List.lookup] at h
    split at h
    · cases h
      exact hall hd (List.mem_cons_self hd tl)
    · exact ih (fun x hx => hall x (List.mem_cons_of_mem hd hx)) h

theorem whoisParsers_sound :
    ∀ x ∈ WHOIS_PARSERS, ∀ r,
      x.2 r = Status.available ∨ x.2 r = Status.taken ∨ x.2 r = Status.unknown := by
  intro x hx r
  fin_cases hx <;> (dsimp only) <;> (split_ifs <;> simp)

theorem parseWhoisResponse_cases (response server : String) :
    parseWhoisResponse response server = .available ∨
    parseWhoisResponse response server = .taken ∨
    parseWhoisResponse response server = .unknown := by
  unfold parseWhoisResponse
  split
  · simp
  · cases h : WHOIS_PARSERS.lookup server with
    | none => simp
    | some p =>
      exact lookup_forall
        (fun q => ∀ r, q r = Status.available ∨ q r = Status.taken ∨ q r = Status.unknown)
        WHOIS_PARSERS server p whoisParsers_sound h response

theorem mapRdapStatus_cases (s : Nat) :
    mapRdapStatus s = .taken ∨ mapRdapStatus s = .available ∨ mapRdapStatus s = .unknown := by
  unfold mapRdapStatus
  split_ifs <;> simp

theorem rdapClassify_shape (x : Option Nat) :
    ((rdapClassify x).status = .unknown → (rdapClassify x).reason.isSome = true) ∧
    ((rdapClassify x).status ≠ .unknown → (rdapClassify x).reason = none) ∧
    (rdapClassify x).status ≠ .skip := by
  cases x with
  | none => simp [rdapClassify]
  | some s =>
    rcases mapRdapStatus_cases s with h | h | h <;> simp [rdapClassify, h]

theorem checkDomainWhois_shape (domain tld : String) (net : WhoisNet) :
    ((checkDomainWhois domain tld net).status = .unknown →
       (checkDomainWhois domain tld net).reason.isSome = true) ∧
    ((checkDomainWhois domain tld net).status ≠ .unknown →
       (checkDomainWhois domain tld net).reason = none) ∧
    (checkDomainWhois domain tld net).status ≠ .skip := by
  unfold checkDomainWhois
  cases h : WHOIS_SERVERS.lookup tld with
  | none => simp
  | some server =>
    rcases parseWhoisResponse_cases (whoisLookup domain server net) server with hp | hp | hp <;>
      simp [hp]

theorem checkDomainRdap_result_classify (domain tld : String) (f : RdapOracle) :
    ∃ x, (checkDomainRdap domain tld f).result = rdapClassify x := by
  unfold checkDomainRdap
  dsimp only
  split <;> exact ⟨_, rfl⟩

/-- Claim C3 counterexample: the skip-listed TLD `.es` resolves to a result
with status `skip` and a populated reason (`tld_not_supported`), although
the claim states that the reason field is populated only when the status
is `unknown`. -/
theorem C3_counterexample :
    (checkSingleDomain "example.es" "es" ⟨fun _ _ => none, ⟨true, true, []⟩⟩).status =
      .skip ∧
    (checkSingleDomain "example.es" "es" ⟨fun _ _ => none, ⟨true, true, []⟩⟩).status ≠
      .unknown ∧
    (checkSingleDomain "example.es" "es" ⟨fun _ _ => none, ⟨true, true, []⟩⟩).reason =
      some "tld_not_supported" := by
  exact ⟨by decide, by decide, by decide⟩

/-- Claim C3 amended: for every AvailabilityResult produced by single-domain
resolution, the reason field is populated when status = unknown, and also
when status = skip (where it is `tld_not_supported`); results with any
other status carry no reason. -/
theorem C3_reason_population (domain tld : String) (net : NetEnv) :
    ((checkSingleDomain domain tld net).status = .unknown →
       (checkSingleDomain domain tld net).reason.isSome = true) ∧
    ((checkSingleDomain domain tld net).status = .skip →
       (checkSingleDomain domain tld net).reason = some "tld_not_supported") ∧
    ((checkSingleDomain domain tld net).status ≠ .unknown →
       (checkSingleDomain domain tld net).status ≠ .skip →
       (checkSingleDomain domain tld net).reason = none) := by
  unfold checkSingleDomain
  split
  · simp
  · split
    · have h1 := checkDomainWhois_shape domain tld net.whois
      exact ⟨h1.1, fun hs => absurd hs h1.2.2, fun hne _ => h1.2.1 hne⟩
    · split
      · obtain ⟨x, hx⟩ := checkDomainRdap_result_classify domain tld net.rdap
        rw [hx]
        have h1 := rdapClassify_shape x
        exact ⟨h1.1, fun hs => absurd hs h1.2.2, fun hne _ => h1.2.1 hne⟩
      · simp

/-- Witness for C3: the amended theorem applied at the skip-listed `.es`
TLD, discharging the skip-status premise at a concrete input. -/
theorem C3_reason_population_witness :
    (checkSingleDomain "example.es" "es" ⟨fun _ _ => none, ⟨true, true, []⟩⟩).reason =
      some "tld_not_supported" :=
  (C3_reason_population "example.es" "es" ⟨fun _ _ => none, ⟨true, true, []⟩⟩).2.1 (by decide)

-- ---------------------------------------------------------------------------
-- C4 and C5: RDAP classification and retry policy
-- ---------------------------------------------------------------------------

theorem checkDomainRdap_eq (domain tld : String) (f : RdapOracle) :
    checkDomainRdap domain tld f =
      if rdapIsNonDefinitive (f (rdapUrl domain tld) 0) = true then
        ⟨rdapClassify (f (rdapUrl domain tld) 1), 2, some 2000⟩
      else ⟨rdapClassify (f (rdapUrl domain tld) 0), 1, none⟩ := rfl

theorem rdapIsNonDefinitive_iff (x : Option Nat) :
    rdapIsNonDefinitive x = true ↔
      (x = none ∨ x = some 429 ∨ ∃ c, x = some c ∧ 500 ≤ c ∧ c < 600) := by
  cases x with
  | none => simp [rdapIsNonDefinitive]
  | some s =>
    simp only [rdapIsNonDefinitive, Bool.or_eq_true, beq_iff_eq, Bool.and_eq_true,
      decide_eq_true_eq, Option.some.injEq, reduceCtorEq, false_or]
    constructor
    · rintro (h | ⟨h1, h2⟩)
      · exact Or.inl h
      · exact Or.inr ⟨s, rfl, h1, h2⟩
    · rintro (h | ⟨c, hc, h1, h2⟩)
      · exact Or.inl h
      · cases hc
        exact Or.inr ⟨h1, h2⟩

theorem rdapClassify_unmapped (c : Nat) (h200 : c ≠ 200) (h404 : c ≠ 404) :
    rdapClassify (some c) = ⟨.unknown, some ("http_" ++ toString c)⟩ := by
  simp [rdapClassify, mapRdapStatus, h200, h404]

theorem rdapClassify_final (x : Option Nat) :
    (rdapClassify x).status = .taken ∨ (rdapClassify x).status = .available ∨
    ((rdapClassify x).status = .unknown ∧
      ((rdapClassify x).reason = some "timeout" ∨
       ∃ c : Nat, (rdapClassify x).reason = some ("http_" ++ toString c))) := by
  cases x with
  | none => simp [rdapClassify]
  | some s =>
    rcases mapRdapStatus_cases s with h | h | h
    · simp [rdapClassify, h]
    · simp [rdapClassify, h]
    · right
      right
      refine ⟨by simp [rdapClassify, h], Or.inr ⟨s, by simp [rdapClassify, h]⟩⟩

/-- Claim C4 counterexample: with a first attempt answering HTTP 503 and the
retry receiving no response, the final result is unknown with reason
`timeout`, although a response (the 503) was received — contradicting the
claim that a final reason of `timeout` means no response was ever
received. -/
theorem C4_counterexample :
    (checkDomainRdap "example.com" "com"
       (fun _ n => if n = 0 then some 503 else none)).result =
      ⟨Status.unknown, some "timeout"⟩ ∧
    (fun (_ : String) (n : Nat) => if n = 0 then some 503 else none)
      (rdapUrl "example.com" "com") 0 = some 503 := by
  exact ⟨by decide, by decide⟩

/-- Claim C4 amended: a second RDAP attempt is issued, after a fixed
2-second delay, if and only if the first attempt was non-definitive for a
transient reason (no response, HTTP 429, or a 5xx status); a client-error
status other than 404 and 429 produces a definitive unknown result with
reason `http_<code>` without retry; and the final result is the
classification of the last attempt made: `taken`, `available`, or
`unknown` with reason `timeout` (that attempt received no response) or
`http_<code>` (that attempt received an unmapped code). -/
theorem C4_retry_policy (domain tld : String) (f : RdapOracle) :
    ((checkDomainRdap domain tld f).attempts = 2 ↔
      (f (rdapUrl domain tld) 0 = none ∨ f (rdapUrl domain tld) 0 = some 429 ∨
       ∃ c, f (rdapUrl domain tld) 0 = some c ∧ 500 ≤ c ∧ c < 600)) ∧
    ((checkDomainRdap domain tld f).retryDelayMs =
      if (checkDomainRdap domain tld f).attempts = 2 then some 2000 else none) ∧
    ((checkDomainRdap domain tld f).result =
      rdapClassify (f (rdapUrl domain tld) ((checkDomainRdap domain tld f).attempts - 1))) ∧
    (∀ c, f (rdapUrl domain tld) 0 = some c → 400 ≤ c → c < 500 → c ≠ 404 → c ≠ 429 →
      (checkDomainRdap domain tld f).attempts = 1 ∧
      (checkDomainRdap domain tld f).result = ⟨.unknown, some ("http_" ++ toString c)⟩) ∧
    ((checkDomainRdap domain tld f).result.status = .taken ∨
     (checkDomainRdap domain tld f).result.status = .available ∨
     ((checkDomainRdap domain tld f).result.status = .unknown ∧
       ((checkDomainRdap domain tld f).result.reason = some "timeout" ∨
        ∃ c : Nat, (checkDomainRdap domain tld f).result.reason = some ("http_" ++ toString c)))) := by
  by_cases hnd : rdapIsNonDefinitive (f (rdapUrl domain tld) 0) = true
  · have he : checkDomainRdap domain tld f =
        ⟨rdapClassify (f (rdapUrl domain tld) 1), 2, some 2000⟩ := by
      rw [checkDomainRdap_eq, if_pos hnd]
    rw [he]
    refine ⟨?_, ?_, ?_, ?_, ?_⟩
    · exact ⟨fun _ => (rdapIsNonDefinitive_iff _).mp hnd, fun _ => rfl⟩
    · rfl
    · rfl
    · intro c hc h4 h5 h404 h429
      exfalso
      rw [hc] at hnd
      simp only [rdapIsNonDefinitive, Bool.or_eq_true, beq_iff_eq, Bool.and_eq_true,
        decide_eq_true_eq] at hnd
      omega
    · exact rdapClassify_final _
  · have he : checkDomainRdap domain tld f =
        ⟨rdapClassify (f (rdapUrl domain tld) 0), 1, none⟩ := by
      rw [checkDomainRdap_eq, if_neg hnd]
    rw [he]
    refine ⟨?_, ?_, ?_, ?_, ?_⟩
    · constructor
      · intro h
        exact absurd h (by simp)
      · intro h
        exact absurd ((rdapIsNonDefinitive_iff _).mpr h) hnd
    · rfl
    · rfl
    · intro c hc h4 h5 h404 h429
      refine ⟨rfl, ?_⟩
      show rdapClassify (f (rdapUrl domain tld) 0) = _
      rw [hc]
      exact rdapClassify_unmapped c (by omega) h404
    · exact rdapClassify_final _

/-- Witness for C4: the amended theorem applied to an oracle answering 403,
discharging the client-error clause at a concrete input. -/
theorem C4_retry_policy_witness :
    (checkDomainRdap "example.com" "com" (fun _ _ => some 403)).attempts = 1 ∧
    (checkDomainRdap "example.com" "com" (fun _ _ => some 403)).result =
      ⟨.unknown, some ("http_" ++ toString 403)⟩ :=
  (C4_retry_policy "example.com" "com" (fun _ _ => some 403)).2.2.2.1 403 rfl
    (by decide) (by decide) (by decide) (by decide)

/-- Claim C5 counterexample: an RDAP response with the 200-class status 204
classifies the domain as `unknown`, not `taken` — only the exact status
200 maps to `taken`. -/
theorem C5_counterexample :
    (checkDomainRdap "example.com" "com" (fun _ _ => some 204)).result.status =
      Status.unknown ∧
    Status.unknown ≠ Status.taken := by
  exact ⟨by decide, by decide⟩

/-- Claim C5 amended: an RDAP response with status exactly 200 classifies
the domain as taken, 404 classifies it as available, and any other
200-class (2xx) response classifies it as unknown with reason
`http_<code>`; in all these cases no retry attempt is made. -/
theorem C5_rdap_definitive (domain tld : String) (f : RdapOracle) (c : Nat)
    (hc : f (rdapUrl domain tld) 0 = some c) :
    (c = 200 → checkDomainRdap domain tld f = ⟨⟨.taken, none⟩, 1, none⟩) ∧
    (c = 404 → checkDomainRdap domain tld f = ⟨⟨.available, none⟩, 1, none⟩) ∧
    (200 ≤ c → c < 300 → c ≠ 200 →
      checkDomainRdap domain tld f = ⟨⟨.unknown, some ("http_" ++ toString c)⟩, 1, none⟩) := by
  have hnd : ∀ d : Nat, d = 200 ∨ d = 404 ∨ (200 ≤ d ∧ d < 300) →
      rdapIsNonDefinitive (some d) = false := by
    intro d hd
    simp only [rdapIsNonDefinitive, Bool.or_eq_false_iff, beq_eq_false_iff_ne, ne_eq,
      Bool.and_eq_false_iff, decide_eq_false_iff_not, not_le, not_lt]
    rcases hd with h | h | h
    · exact ⟨by omega, Or.inl (by omega)⟩
    · exact ⟨by omega, Or.inl (by omega)⟩
    · exact ⟨by omega, Or.inl (by omega)⟩
  refine ⟨?_, ?_, ?_⟩
  · intro h
    subst h
    rw [checkDomainRdap_eq, hc, hnd 200 (Or.inl rfl)]
    simp [rdapClassify, mapRdapStatus]
  · intro h
    subst h
    rw [checkDomainRdap_eq, hc, hnd 404 (Or.inr (Or.inl rfl))]
    simp [rdapClassify, mapRdapStatus]
  · intro h1 h2 h3
    rw [checkDomainRdap_eq, hc, hnd c (Or.inr (Or.inr ⟨h1, h2⟩))]
    simp only [Bool.false_eq_true, if_false]
    rw [rdapClassify_unmapped c h3 (by omega)]

/-- Witness for C5: the amended theorem applied to a concrete oracle that
answers 200 on the first attempt. -/
theorem C5_rdap_definitive_witness :
    checkDomainRdap "example.com" "com" (fun _ _ => some 200) =
      ⟨⟨.taken, none⟩, 1, none⟩ :=
  (C5_rdap_definitive "example.com" "com" (fun _ _ => some 200) 200 rfl).1 rfl

-- ---------------------------------------------------------------------------
-- C9: batch response invariants
-- ---------------------------------------------------------------------------

theorem mem_dedupFirst (x : String) : ∀ (l seen : List String),
    x ∈ dedupFirst seen l ↔ x ∈ l ∧ x ∉ seen := by
  intro l
  induction l with
  | nil => simp [dedupFirst]
  | cons hd tl ih =>
    intro seen
    by_cases h : seen.contains hd = true
    · have hmem : hd ∈ seen := by simpa using h
      rw [dedupFirst, if_pos h, ih]
      constructor
      · rintro ⟨hx, hs⟩
        exact ⟨List.mem_cons_of_mem hd hx, hs⟩
      · rintro ⟨hx, hs⟩
        rcases List.mem_cons.mp hx with rfl | hx
        · exact absurd hmem hs
        · exact ⟨hx, hs⟩
    · have hmem : hd ∉ seen := by simpa using h
      rw [dedupFirst, if_neg h]
      constructor
      · intro hx
        rcases List.mem_cons.mp hx with rfl | hx
        · exact ⟨List.mem_cons_self _ _, hmem⟩
        · obtain ⟨h1, h2⟩ := (ih (hd :: seen)).mp hx
          exact ⟨List.mem_cons_of_mem hd h1,
            fun hs => h2 (List.mem_cons_of_mem hd hs)⟩
      · rintro ⟨hx, hs⟩
        rcases List.mem_cons.mp hx with rfl | hx
        · exact List.mem_cons_self _ _
        · by_cases hxh : x = hd
          · subst hxh
            exact List.mem_cons_self _ _
          · refine List.mem_cons_of_mem hd ((ih (hd :: seen)).mpr ⟨hx, ?_⟩)
            intro hmem2
            rcases List.mem_cons.mp hmem2 with h' | h'
            · exact hxh h'
            · exact hs h'

theorem nodup_dedupFirst : ∀ (l seen : List String), (dedupFirst seen l).Nodup := by
  intro l
  induction l with
  | nil => intro seen; simp [dedupFirst]
  | cons hd tl ih =>
    intro seen
    by_cases h : seen.contains hd = true
    · rw [dedupFirst, if_pos h]
      exact ih seen
    · rw [dedupFirst, if_neg h]
      refine List.Nodup.cons ?_ (ih (hd :: seen))
      intro hmem
      exact ((mem_dedupFirst hd tl (hd :: seen)).mp hmem).2 (List.mem_cons_self _ _)

theorem length_dedupFirst (l : List String) :
    (dedupFirst [] l).length = l.dedup.length := by
  have h1 : (dedupFirst [] l).toFinset = l.toFinset := by
    ext x
    simp [mem_dedupFirst]
  calc (dedupFirst [] l).length
      = (dedupFirst [] l).toFinset.card :=
        (List.toFinset_card_of_nodup (nodup_dedupFirst l [])).symm
    _ = l.toFinset.card := by rw [h1]
    _ = l.dedup.length := List.card_toFinset l

theorem countP_add_countP_not {α : Type} (p : α → Bool) (l : List α) :
    l.countP p + l.countP (fun a => !p a) = l.length := by
  induction l with
  | nil => simp
  | cons hd tl ih =>
    by_cases h : p hd = true <;> simp [List.countP_cons, h] <;> omega

/-- Claim C9: for every batch request that passes validation, `meta.checked`
equals the number of unique lowercase-normalized domains in the request,
the results map has exactly one entry per unique domain, and
`meta.completed + meta.incomplete = meta.checked`. -/
theorem C9_batch_invariants (domains : List String) (net : String → NetEnv)
    (h1 : domains ≠ []) (h2 : domains.length ≤ 20)
    (h3 : ∀ d ∈ dedupFirst [] (domains.map strToLower), isValidDomain d = true) :
    ∃ resp, handleDomainCheck domains net = .ok resp ∧
      resp.meta.checked = (domains.map strToLower).dedup.length ∧
      resp.results.map Prod.fst = dedupFirst [] (domains.map strToLower) ∧
      (resp.results.map Prod.fst).Nodup ∧
      (∀ d, d ∈ resp.results.map Prod.fst ↔ d ∈ domains.map strToLower) ∧
      resp.meta.completed + resp.meta.incomplete = resp.meta.checked := by
  have hlen : ¬domains.length = 0 := fun h => h1 (List.length_eq_zero.mp h)
  have hlen2 : ¬domains.length > 20 := by omega
  have hall : (dedupFirst [] (domains.map strToLower)).all isValidDomain = true :=
    List.all_eq_true.mpr h3
  rw [handleDomainCheck, if_neg hlen, if_neg hlen2]
  dsimp only
  rw [if_pos hall]
  refine ⟨_, rfl, ?_, ?_, ?_, ?_, ?_⟩
  · exact length_dedupFirst _
  · rw [List.map_map]
    exact List.map_id _
  · rw [List.map_map]
    have hid : List.map (Prod.fst ∘ fun domain =>
        (domain, checkSingleDomain domain (domainTld domain) (net domain)))
        (dedupFirst [] (domains.map strToLower)) =
        dedupFirst [] (domains.map strToLower) := List.map_id _
    rw [hid]
    exact nodup_dedupFirst _ _
  · intro d
    rw [List.map_map]
    have hid : List.map (Prod.fst ∘ fun domain =>
        (domain, checkSingleDomain domain (domainTld domain) (net domain)))
        (dedupFirst [] (domains.map strToLower)) =
        dedupFirst [] (domains.map strToLower) := List.map_id _
    rw [hid, mem_dedupFirst]
    simp
  · have hsum := countP_add_countP_not
      (fun p : String × AvailabilityResult => decide (p.2.status = Status.unknown))
      ((dedupFirst [] (domains.map strToLower)).map
        (fun domain => (domain, checkSingleDomain domain (domainTld domain) (net domain))))
    rw [List.length_map] at hsum
    rw [← hsum, Nat.add_comm]
    congr 1
    apply List.countP_congr
    intro a _
    simp [decide_not]

/-- Witness for C9: the invariants applied to a concrete two-element batch
(with one duplicate in different case), discharging every hypothesis. -/
theorem C9_batch_invariants_witness :
    ∃ resp, handleDomainCheck ["Example.COM", "example.com", "foo.zz"]
        (fun _ => ⟨fun _ _ => some 404, ⟨true, true, []⟩⟩) = .ok resp ∧
      resp.meta.checked =
        ((["Example.COM", "example.com", "foo.zz"] : List String).map strToLower).dedup.length ∧
      resp.results.map Prod.fst =
        dedupFirst [] ((["Example.COM", "example.com", "foo.zz"] : List String).map strToLower) ∧
      (resp.results.map Prod.fst).Nodup ∧
      (∀ d, d ∈ resp.results.map Prod.fst ↔
        d ∈ (["Example.COM", "example.com", "foo.zz"] : List String).map strToLower) ∧
      resp.meta.completed + resp.meta.incomplete = resp.meta.checked :=
  C9_batch_invariants ["Example.COM", "example.com", "foo.zz"]
    (fun _ => ⟨fun _ _ => some 404, ⟨true, true, []⟩⟩)
    (by decide) (by decide) (by decide)

-- ---------------------------------------------------------------------------
-- Guard-chain infrastructure lemmas
-- ---------------------------------------------------------------------------

theorem circuitKey_ne_rateKey (m ip : String) (n : Nat) : circuitKey m ≠ rateKey ip n := by
  intro h
  have h1 : (circuitKey m).data.head? = (rateKey ip n).data.head? := by rw [h]
  simp [circuitKey, rateKey, String.data_append] at h1

theorem quotaKey_ne_rateKey (ip m ip' : String) (n : Nat) : quotaKey ip m ≠ rateKey ip' n := by
  intro h
  have h1 : (quotaKey ip m).data.head? = (rateKey ip' n).data.head? := by rw [h]
  simp [quotaKey, rateKey, String.data_append] at h1

theorem quotaKey_ne_circuitKey (ip m m' : String) : quotaKey ip m ≠ circuitKey m' := by
  intro h
  have h1 : (quotaKey ip m).data.head? = (circuitKey m').data.head? := by rw [h]
  simp [quotaKey, circuitKey, String.data_append] at h1

theorem kvGet_kvPut_self (kv : KV) (k : String) (v : Nat) :
    kvGet (kvPut kv k v) k = some v := by
  simp [kvGet, kvPut, List.lookup]

theorem kvGet_kvPut_ne (kv : KV) (k k' : String) (v : Nat) (h : k' ≠ k) :
    kvGet (kvPut kv k v) k' = kvGet kv k' := by
  unfold kvGet kvPut
  rw [List.lookup]
  rw [show (k' == k) = false from beq_eq_false_iff_ne.mpr h]

theorem quotaCount_kvPut_rate (kv : KV) (clk : Clock) (ip ip' : String) (n v : Nat) :
    quotaCount (kvPut kv (rateKey ip' n) v) clk ip = quotaCount kv clk ip := by
  unfold quotaCount
  rw [kvGet_kvPut_ne _ _ _ _ (quotaKey_ne_rateKey ip clk.month ip' n)]

theorem circuitCount_kvPut_rate (kv : KV) (clk : Clock) (ip : String) (n v : Nat) :
    circuitCount (kvPut kv (rateKey ip n) v) clk = circuitCount kv clk := by
  unfold circuitCount
  rw [kvGet_kvPut_ne _ _ _ _ (circuitKey_ne_rateKey clk.month ip n)]

theorem circuitCount_kvPut_quota (kv : KV) (clk : Clock) (ip m : String) (v : Nat) :
    circuitCount (kvPut kv (quotaKey ip m) v) clk = circuitCount kv clk := by
  unfold circuitCount
  rw [kvGet_kvPut_ne _ _ _ _ (Ne.symm (quotaKey_ne_circuitKey ip m clk.month))]

theorem quotaCount_kvPut_circuit (kv : KV) (clk : Clock) (ip m : String) (v : Nat) :
    quotaCount (kvPut kv (circuitKey m) v) clk ip = quotaCount kv clk ip := by
  unfold quotaCount
  rw [kvGet_kvPut_ne _ _ _ _ (quotaKey_ne_circuitKey ip clk.month m)]

theorem quotaCount_kvPut_quota_self (kv : KV) (clk : Clock) (ip : String) (v : Nat) :
    quotaCount (kvPut kv (quotaKey ip clk.month) v) clk ip = v := by
  unfold quotaCount
  rw [kvGet_kvPut_self]
  rfl

theorem circuitCount_kvPut_circuit_self (kv : KV) (clk : Clock) (v : Nat) :
    circuitCount (kvPut kv (circuitKey clk.month) v) clk = v := by
  unfold circuitCount
  rw [kvGet_kvPut_self]
  rfl

theorem checkRateLimit_limited (env : Env) (kv : KV) (clk : Clock) (ip : String)
    (maxPerMinute : Nat) (hkv : env.kvConfigured = true)
    (hover : rateCount kv clk ip ≥ maxPerMinute) :
    checkRateLimit env kv clk ip maxPerMinute =
      (true, kv, [Ev.kvGet (rateKey ip clk.minute)]) := by
  unfold checkRateLimit
  rw [hkv]
  simp only [Bool.not_true, Bool.false_eq_true, if_false]
  exact if_pos hover

theorem checkRateLimit_allowed (env : Env) (kv : KV) (clk : Clock) (ip : String)
    (maxPerMinute : Nat) (hkv : env.kvConfigured = true)
    (hunder : ¬rateCount kv clk ip ≥ maxPerMinute) :
    checkRateLimit env kv clk ip maxPerMinute =
      (false, kvPut kv (rateKey ip clk.minute) (rateCount kv clk ip + 1),
       [Ev.kvGet (rateKey ip clk.minute),
        Ev.kvPut (rateKey ip clk.minute) (rateCount kv clk ip + 1)]) := by
  unfold checkRateLimit
  rw [hkv]
  simp only [Bool.not_true, Bool.false_eq_true, if_false]
  exact if_neg hunder

theorem checkCircuitBreaker_eq (env : Env) (kv : KV) (clk : Clock) (limit : Nat)
    (hkv : env.kvConfigured = true) :
    checkCircuitBreaker env kv clk limit =
      (⟨decide (circuitCount kv clk ≥ limit), circuitCount kv clk⟩,
       [Ev.kvGet (circuitKey clk.month)]) := by
  unfold checkCircuitBreaker
  rw [hkv]
  rfl

theorem checkQuota_eq (env : Env) (kv : KV) (clk : Clock) (ip : String) (free : Nat)
    (hkv : env.kvConfigured = true) :
    checkQuota env kv clk ip free =
      (⟨decide (quotaCount kv clk ip < free), quotaCount kv clk ip,
        free - quotaCount kv clk ip⟩,
       [Ev.kvGet (quotaKey ip clk.month)]) := by
  unfold checkQuota
  rw [hkv]
  rfl

theorem incrementQuota_eq (env : Env) (kv : KV) (clk : Clock) (ip : String) (used : Nat)
    (hkv : env.kvConfigured = true) :
    incrementQuota env kv clk ip used =
      (kvPut kv (quotaKey ip clk.month) (used + 1),
       [Ev.kvPut (quotaKey ip clk.month) (used + 1)]) := by
  unfold incrementQuota
  rw [hkv]
  rfl

theorem incrementMonthlyCount_eq (env : Env) (kv : KV) (clk : Clock) (limit : Nat)
    (hkv : env.kvConfigured = true) :
    incrementMonthlyCount env kv clk limit =
      (kvPut kv (circuitKey clk.month) (circuitCount kv clk + 1),
       [Ev.kvGet (circuitKey clk.month),
        Ev.kvPut (circuitKey clk.month) (circuitCount kv clk + 1)] ++
       (if circuitCount kv clk + 1 ≥ limit ∧ circuitCount kv clk < limit then
          sendBreakerAlert env
        else [])) := by
  unfold incrementMonthlyCount
  rw [hkv]
  rfl

theorem handlePremiumCheck_rate_limited (env : Env) (clk : Clock) (req : PremiumRequest)
    (up : Upstream) (kv : KV) (hkv : env.kvConfigured = true)
    (hover : rateCount kv clk (getClientIP req) ≥ 10) :
    handlePremiumCheck env clk req up kv =
      (errorResponse 429 "rate_limited" (some "Too many requests. Please wait a moment."),
       kv, [Ev.kvGet (rateKey (getClientIP req) clk.minute)]) := by
  unfold handlePremiumCheck
  dsimp only
  rw [checkRateLimit_limited env kv clk _ 10 hkv hover]
  rfl

theorem handlePremiumCheck_quota_exceeded (env : Env) (clk : Clock) (req : PremiumRequest)
    (up : Upstream) (kv : KV) (hkv : env.kvConfigured = true)
    (hrate : ¬rateCount kv clk (getClientIP req) ≥ 10)
    (hcirc : ¬circuitCount kv clk ≥ jsOrDefault env.monthlyLimitRaw 8000)
    (hquota : ¬quotaCount kv clk (getClientIP req) < jsOrDefault env.freeChecksRaw 5) :
    handlePremiumCheck env clk req up kv =
      (⟨429, some "quota_exceeded", none, none, some 0⟩,
       kvPut kv (rateKey (getClientIP req) clk.minute) (rateCount kv clk (getClientIP req) + 1),
       [Ev.kvGet (rateKey (getClientIP req) clk.minute),
        Ev.kvPut (rateKey (getClientIP req) clk.minute) (rateCount kv clk (getClientIP req) + 1),
        Ev.kvGet (circuitKey clk.month),
        Ev.kvGet (quotaKey (getClientIP req) clk.month)]) := by
  unfold handlePremiumCheck
  dsimp only
  rw [checkRateLimit_allowed env kv clk _ 10 hkv hrate]
  dsimp only
  simp only [Bool.false_eq_true, if_false]
  rw [checkCircuitBreaker_eq env _ clk _ hkv]
  dsimp only
  rw [circuitCount_kvPut_rate]
  rw [decide_eq_false hcirc]
  simp only [Bool.false_eq_true, if_false]
  rw [checkQuota_eq env _ clk _ _ hkv]
  dsimp only
  rw [quotaCount_kvPut_rate]
  rw [decide_eq_false hquota]
  simp only [Bool.not_false, if_true]
  rfl

theorem handlePremiumCheck_counts (env : Env) (clk : Clock) (req : PremiumRequest)
    (up : Upstream) (kv : KV) (hkv : env.kvConfigured = true) :
    ((handlePremiumCheck env clk req up kv).1.httpStatus = 200 →
       quotaCount (handlePremiumCheck env clk req up kv).2.1 clk (getClientIP req) =
         quotaCount kv clk (getClientIP req) + 1 ∧
       circuitCount (handlePremiumCheck env clk req up kv).2.1 clk =
         circuitCount kv clk + 1) ∧
    ((handlePremiumCheck env clk req up kv).1.httpStatus ≠ 200 →
       quotaCount (handlePremiumCheck env clk req up kv).2.1 clk (getClientIP req) =
         quotaCount kv clk (getClientIP req) ∧
       circuitCount (handlePremiumCheck env clk req up kv).2.1 clk =
         circuitCount kv clk) := by
  by_cases hrate : rateCount kv clk (getClientIP req) ≥ 10
  · rw [handlePremiumCheck_rate_limited env clk req up kv hkv hrate]
    exact ⟨fun h => absurd h (by simp [errorResponse]), fun _ => ⟨rfl, rfl⟩⟩
  · have hq1 := quotaCount_kvPut_rate kv clk (getClientIP req) (getClientIP req) clk.minute
      (rateCount kv clk (getClientIP req) + 1)
    have hc1 := circuitCount_kvPut_rate kv clk (getClientIP req) clk.minute
      (rateCount kv clk (getClientIP req) + 1)
    unfold handlePremiumCheck
    dsimp only
    rw [checkRateLimit_allowed env kv clk _ 10 hkv hrate]
    dsimp only
    simp only [Bool.false_eq_true, if_false]
    rw [checkCircuitBreaker_eq env _ clk _ hkv]
    dsimp only
    rw [circuitCount_kvPut_rate]
    by_cases hcirc : circuitCount kv clk ≥ jsOrDefault env.monthlyLimitRaw 8000
    · rw [decide_eq_true hcirc, if_pos rfl]
      exact ⟨fun h => absurd h (by simp [errorResponse]), fun _ => ⟨hq1, hc1⟩⟩
    · rw [decide_eq_false hcirc]
      simp only [Bool.false_eq_true, if_false]
      rw [checkQuota_eq env _ clk _ _ hkv]
      dsimp only
      rw [quotaCount_kvPut_rate]
      by_cases hquota : quotaCount kv clk (getClientIP req) < jsOrDefault env.freeChecksRaw 5
      · rw [decide_eq_true hquota]
        simp only [Bool.not_true, Bool.false_eq_true, if_false]
        repeat' split
        all_goals
          first
            | exact ⟨fun h => absurd h (by simp [errorResponse]), fun _ => ⟨hq1, hc1⟩⟩
            | (rw [incrementQuota_eq env _ clk _ _ hkv]
               dsimp only
               rw [incrementMonthlyCount_eq env _ clk _ hkv]
               dsimp only
               refine ⟨fun _ => ⟨?_, ?_⟩, fun h => absurd rfl h⟩
               · rw [quotaCount_kvPut_circuit, quotaCount_kvPut_quota_self]
               · rw [circuitCount_kvPut_circuit_self, circuitCount_kvPut_quota,
                   circuitCount_kvPut_rate])
      · rw [decide_eq_false hquota]
        simp only [Bool.not_false, if_true]
        exact ⟨fun h => absurd h (by simp), fun _ => ⟨hq1, hc1⟩⟩

-- ---------------------------------------------------------------------------
-- C1: when the monthly circuit-breaker counter is incremented
-- ---------------------------------------------------------------------------

/-- Claim C1 counterexample: a premium-check request that reaches the
upstream call stage (the trace contains the metered upstream call) but
whose upstream call fails at the network level leaves the global monthly
counter unchanged at 0, contradicting the claim that every metered attempt
increments it unconditionally. -/
theorem C1_counterexample :
    callsUpstream (handlePremiumCheck ⟨true, true, true, none, none⟩ ⟨"2026-10", 0⟩
        ⟨some "1.2.3.4", 100, true, true, .str "example.com"⟩ Upstream.netError []).2.2 =
      true ∧
    circuitCount (handlePremiumCheck ⟨true, true, true, none, none⟩ ⟨"2026-10", 0⟩
        ⟨some "1.2.3.4", 100, true, true, .str "example.com"⟩ Upstream.netError []).2.1
      ⟨"2026-10", 0⟩ = 0 ∧
    circuitCount [] ⟨"2026-10", 0⟩ = 0 := by
  exact ⟨by decide, by decide, by decide⟩

/-- Claim C1 amended: with the KV store configured, the global monthly
circuit-breaker counter is incremented exactly on the premium-check
requests whose metered upstream call succeeds (the handler returns
HTTP 200); rate-limited, circuit-open, quota-rejected, invalid, and
upstream-failed attempts leave the monthly request count unchanged. -/
theorem C1_monthly_increment_on_success (env : Env) (clk : Clock) (req : PremiumRequest)
    (up : Upstream) (kv : KV) (hkv : env.kvConfigured = true) :
    ((handlePremiumCheck env clk req up kv).1.httpStatus = 200 →
       circuitCount (handlePremiumCheck env clk req up kv).2.1 clk =
         circuitCount kv clk + 1) ∧
    ((handlePremiumCheck env clk req up kv).1.httpStatus ≠ 200 →
       circuitCount (handlePremiumCheck env clk req up kv).2.1 clk =
         circuitCount kv clk) :=
  ⟨fun h => ((handlePremiumCheck_counts env clk req up kv hkv).1 h).2,
   fun h => ((handlePremiumCheck_counts env clk req up kv hkv).2 h).2⟩

/-- Witness for C1: the amended theorem applied to a concrete successful
request, showing the monthly counter rising from 0 to 1. -/
theorem C1_monthly_increment_on_success_witness :
    circuitCount (handlePremiumCheck ⟨true, true, true, none, none⟩ ⟨"2026-10", 0⟩
        ⟨some "1.2.3.4", 100, true, true, .str "example.com"⟩
        (Upstream.resp 200 (some (some [⟨some "example.com", some "active", none⟩]))) []).2.1
      ⟨"2026-10", 0⟩ =
    circuitCount [] ⟨"2026-10", 0⟩ + 1 :=
  (C1_monthly_increment_on_success ⟨true, true, true, none, none⟩ ⟨"2026-10", 0⟩
    ⟨some "1.2.3.4", 100, true, true, .str "example.com"⟩
    (Upstream.resp 200 (some (some [⟨some "example.com", some "active", none⟩]))) []
    rfl).1 (by decide)

-- ---------------------------------------------------------------------------
-- C6: guard order — burst limiter first
-- ---------------------------------------------------------------------------

/-- Claim C6: the admission guards run in the fixed order burst limiter,
circuit breaker, quota: a client over the per-minute burst limit is
rejected with the rate-limited outcome even when the breaker is closed and
quota remains, the store is left unchanged, and neither the breaker key
nor the quota key is consulted, nor is the upstream called. -/
theorem C6_guard_order (env : Env) (clk : Clock) (req : PremiumRequest)
    (up : Upstream) (kv : KV) (hkv : env.kvConfigured = true)
    (hover : rateCount kv clk (getClientIP req) ≥ 10)
    (_hcirc : circuitCount kv clk < jsOrDefault env.monthlyLimitRaw 8000)
    (_hquota : quotaCount kv clk (getClientIP req) < jsOrDefault env.freeChecksRaw 5) :
    (handlePremiumCheck env clk req up kv).1 =
      errorResponse 429 "rate_limited" (some "Too many requests. Please wait a moment.") ∧
    (handlePremiumCheck env clk req up kv).2.1 = kv ∧
    (handlePremiumCheck env clk req up kv).2.2 =
      [Ev.kvGet (rateKey (getClientIP req) clk.minute)] ∧
    touchesKey (handlePremiumCheck env clk req up kv).2.2 (circuitKey clk.month) = false ∧
    touchesKey (handlePremiumCheck env clk req up kv).2.2
      (quotaKey (getClientIP req) clk.month) = false ∧
    callsUpstream (handlePremiumCheck env clk req up kv).2.2 = false := by
  rw [handlePremiumCheck_rate_limited env clk req up kv hkv hover]
  refine ⟨rfl, rfl, rfl, ?_, ?_, rfl⟩
  · simp only [touchesKey, List.any_cons, List.any_nil, Bool.or_false]
    exact beq_eq_false_iff_ne.mpr
      (fun h => circuitKey_ne_rateKey clk.month (getClientIP req) clk.minute h.symm)
  · simp only [touchesKey, List.any_cons, List.any_nil, Bool.or_false]
    exact beq_eq_false_iff_ne.mpr
      (fun h => quotaKey_ne_rateKey (getClientIP req) clk.month (getClientIP req) clk.minute h.symm)

/-- Witness for C6: a concrete client at the burst ceiling with a closed
breaker and quota remaining is rejected rate-limited. -/
theorem C6_guard_order_witness :
    (handlePremiumCheck ⟨true, true, true, none, none⟩ ⟨"2026-10", 0⟩
        ⟨some "1.2.3.4", 100, true, true, .str "example.com"⟩ Upstream.netError
        [(rateKey "1.2.3.4" 0, 10)]).1 =
      errorResponse 429 "rate_limited" (some "Too many requests. Please wait a moment.") :=
  (C6_guard_order ⟨true, true, true, none, none⟩ ⟨"2026-10", 0⟩
    ⟨some "1.2.3.4", 100, true, true, .str "example.com"⟩ Upstream.netError
    [(rateKey "1.2.3.4" 0, 10)] rfl (by decide) (by decide) (by decide)).1

-- ---------------------------------------------------------------------------
-- C7: quota consumed only by successful metered calls
-- ---------------------------------------------------------------------------

/-- Claim C7: with the KV store configured, the per-client `checksUsed`
counter is incremented exactly when the metered upstream call succeeds
(HTTP 200 returned) and is left unchanged by every failed or rejected
request; and a client at or above the free allotment that passes the
earlier guards is rejected with the quota-exceeded outcome without any
upstream call being made. -/
theorem C7_quota_semantics (env : Env) (clk : Clock) (req : PremiumRequest)
    (up : Upstream) (kv : KV) (hkv : env.kvConfigured = true) :
    ((handlePremiumCheck env clk req up kv).1.httpStatus = 200 →
       quotaCount (handlePremiumCheck env clk req up kv).2.1 clk (getClientIP req) =
         quotaCount kv clk (getClientIP req) + 1) ∧
    ((handlePremiumCheck env clk req up kv).1.httpStatus ≠ 200 →
       quotaCount (handlePremiumCheck env clk req up kv).2.1 clk (getClientIP req) =
         quotaCount kv clk (getClientIP req)) ∧
    (quotaCount kv clk (getClientIP req) ≥ jsOrDefault env.freeChecksRaw 5 →
     rateCount kv clk (getClientIP req) < 10 →
     circuitCount kv clk < jsOrDefault env.monthlyLimitRaw 8000 →
       (handlePremiumCheck env clk req up kv).1 =
         ⟨429, some "quota_exceeded", none, none, some 0⟩ ∧
       callsUpstream (handlePremiumCheck env clk req up kv).2.2 = false) := by
  refine ⟨fun h => ((handlePremiumCheck_counts env clk req up kv hkv).1 h).1,
    fun h => ((handlePremiumCheck_counts env clk req up kv hkv).2 h).1, ?_⟩
  intro hq hr hc
  rw [handlePremiumCheck_quota_exceeded env clk req up kv hkv (by omega) (by omega) (by omega)]
  exact ⟨rfl, rfl⟩

/-- Witness for C7: a concrete client with `checksUsed` at the allotment is
rejected quota-exceeded; the hypotheses are discharged by evaluation. -/
theorem C7_quota_semantics_witness :
    (handlePremiumCheck ⟨true, true, true, none, none⟩ ⟨"2026-10", 0⟩
        ⟨some "1.2.3.4", 100, true, true, .str "example.com"⟩ Upstream.netError
        [(quotaKey "1.2.3.4" "2026-10", 5)]).1 =
      ⟨429, some "quota_exceeded", none, none, some 0⟩ ∧
    callsUpstream (handlePremiumCheck ⟨true, true, true, none, none⟩ ⟨"2026-10", 0⟩
        ⟨some "1.2.3.4", 100, true, true, .str "example.com"⟩ Upstream.netError
        [(quotaKey "1.2.3.4" "2026-10", 5)]).2.2 = false :=
  (C7_quota_semantics ⟨true, true, true, none, none⟩ ⟨"2026-10", 0⟩
    ⟨some "1.2.3.4", 100, true, true, .str "example.com"⟩ Upstream.netError
    [(quotaKey "1.2.3.4" "2026-10", 5)] rfl).2.2 (by decide) (by decide) (by decide)

-- ---------------------------------------------------------------------------
-- C8: exactly-once breaker alert over sequential increments
-- ---------------------------------------------------------------------------

theorem countAlerts_append (a b : List Ev) :
    countAlerts (a ++ b) = countAlerts a + countAlerts b := by
  unfold countAlerts
  exact List.countP_append _ _ _

theorem countAlerts_increment (env : Env) (kv : KV) (clk : Clock) (limit : Nat)
    (hkv : env.kvConfigured = true) (hweb : env.alertWebhook = true) :
    countAlerts (incrementMonthlyCount env kv clk limit).2 =
      if circuitCount kv clk + 1 = limit then 1 else 0 := by
  rw [incrementMonthlyCount_eq env kv clk limit hkv]
  by_cases h : circuitCount kv clk + 1 ≥ limit ∧ circuitCount kv clk < limit
  · rw [if_pos h, if_pos (by omega)]
    simp [countAlerts, sendBreakerAlert, hweb, List.countP_cons]
  · rw [if_neg h, if_neg (by omega)]
    simp [countAlerts, List.countP_cons]

theorem countAlerts_runMonthly (env : Env) (clk : Clock) (limit n : Nat)
    (hkv : env.kvConfigured = true) (hweb : env.alertWebhook = true) :
    ∀ kv : KV, countAlerts (runMonthly env clk limit n kv).2 =
      if circuitCount kv clk < limit ∧ limit ≤ circuitCount kv clk + n then 1 else 0 := by
  induction n with
  | zero =>
    intro kv
    rw [runMonthly]
    rw [if_neg (by omega)]
    simp [countAlerts]
  | succ n ih =>
    intro kv
    rw [runMonthly]
    rw [incrementMonthlyCount_eq env kv clk limit hkv]
    dsimp only
    rcases hrun : runMonthly env clk limit n
        (kvPut kv (circuitKey clk.month) (circuitCount kv clk + 1)) with ⟨kv2, evs⟩
    dsimp only
    rw [countAlerts_append]
    have hone : countAlerts ([Ev.kvGet (circuitKey clk.month),
        Ev.kvPut (circuitKey clk.month) (circuitCount kv clk + 1)] ++
        (if circuitCount kv clk + 1 ≥ limit ∧ circuitCount kv clk < limit then
          sendBreakerAlert env else [])) =
        if circuitCount kv clk + 1 = limit then 1 else 0 := by
      by_cases h : circuitCount kv clk + 1 ≥ limit ∧ circuitCount kv clk < limit
      · rw [if_pos h, if_pos (by omega)]
        simp [countAlerts, sendBreakerAlert, hweb, List.countP_cons]
      · rw [if_neg h, if_neg (by omega)]
        simp [countAlerts, List.countP_cons]
    rw [hone]
    have h2 := ih (kvPut kv (circuitKey clk.month) (circuitCount kv clk + 1))
    rw [hrun] at h2
    rw [circuitCount_kvPut_circuit_self] at h2
    dsimp only at h2
    rw [h2]
    split_ifs <;> omega

/-- Claim C8: with the KV store and the webhook configured, a sequential
run of `n` increments of the global monthly counter posts the breaker
alert exactly once when the run starts below the ceiling and reaches it,
and never otherwise; moreover a single increment posts the alert if and
only if its post-increment count equals the ceiling — so the alert fires
at the increment that first reaches the ceiling and at no later increment
while the count stays at or above it. -/
theorem C8_alert_exactly_once (env : Env) (clk : Clock) (limit n : Nat) (kv : KV)
    (hkv : env.kvConfigured = true) (hweb : env.alertWebhook = true) :
    countAlerts (runMonthly env clk limit n kv).2 =
      (if circuitCount kv clk < limit ∧ limit ≤ circuitCount kv clk + n then 1 else 0) ∧
    ∀ kv0 : KV, countAlerts (incrementMonthlyCount env kv0 clk limit).2 =
      (if circuitCount kv0 clk + 1 = limit then 1 else 0) :=
  ⟨countAlerts_runMonthly env clk limit n hkv hweb kv,
   fun kv0 => countAlerts_increment env kv0 clk limit hkv hweb⟩

/-- Witness for C8: five sequential increments against a ceiling of 3,
starting from an empty store, post exactly one alert. -/
theorem C8_alert_exactly_once_witness :
    countAlerts (runMonthly ⟨true, true, true, none, some 3⟩ ⟨"2026-10", 0⟩ 3 5 []).2 = 1 := by
  have h := (C8_alert_exactly_once ⟨true, true, true, none, some 3⟩ ⟨"2026-10", 0⟩ 3 5 []
    rfl rfl).1
  rw [h]
  rw [if_pos ⟨by decide, by decide⟩]

end DomainPuppy
